/-
Verification of the tty-games repository: a shallow embedding of the
per-tick update routines of the five terminal games (one platformer
"mario_game.c", two shooters "shooting_game.c" and the first file of
src/unnamed/part_000, two snake games "snake_game.c" and the second file
of src/unnamed/part_000), together with theorems settling the frozen
claims about them.

Modelling conventions:
- C `int` is modelled as `Int`; C `float` (only the platformer uses it)
  is modelled as `ℚ` with the literal constants taken at their decimal
  value (0.60f as 3/5, 0.1f as 1/10, 0.9f as 9/10, 0.75f as 3/4).
- `(int)floor(q)` is `ifloor q` (floor division of numerator by
  denominator).
- linked lists become `List`s, head first (all insertions in the C code
  are at the front, removals unlink one cell).
- `rand()` is modelled by an explicit stream of draws passed in as an
  argument (a `Nat → Nat` function or a list of candidate cells).
- a `malloc` result is modelled by an explicit `alloc : Bool` argument
  saying whether the allocation succeeded.
- key codes are ncurses values: KEY_UP = 259, KEY_DOWN = 258,
  KEY_LEFT = 260, KEY_RIGHT = 261, and ASCII for letters.
-/
import Mathlib

set_option linter.unusedVariables false
set_option maxRecDepth 100000

/-- `(int)floor(q)` of the C code: the mathematical floor of a rational,
as an integer (every value the games feed it fits in an `int`). -/
def ifloor (q : ℚ) : Int := ⌊q⌋

/-! ## Snake games

`snake_game/snake_game.c` and the second file inside
`src/unnamed/part_000` (a near-duplicate snake game).  A snake segment
is an `(x, y)` cell; the body list is head first, exactly like the
`SnakeSegment` linked list. -/

structure Seg where
  x : Int
  y : Int
deriving DecidableEq, Repr

/-- State of a snake game: body list (head first), heading, food cell,
score, pause flag, and a quit flag modelling the `end_game(); return 0;`
path of the `q` key. -/
structure SnakeState where
  body : List Seg
  dir_x : Int
  dir_y : Int
  food : Seg
  score : Int
  paused : Bool
  quit : Bool
deriving DecidableEq, Repr

/-- `spawn_food` of both snake variants: draw candidate cells until one
matches no body segment (`curr->x == fx && curr->y == fy` scan over the
whole list), then accept it.  The two variants differ only in the
`rand()` range expressions producing the candidates, which are absorbed
into the candidate stream `cands`; `none` models the `while(1)` loop
never finding a free cell among the given draws. -/
def spawn_food : List Seg → List Seg → Option Seg
  | [], _ => none
  | c :: rest, body =>
    if body.any (fun seg => seg.x == c.x && seg.y == c.y) then
      spawn_food rest body
    else
      some c

namespace SnakeA

/-- `erase_tail` of snake_game.c: `if (!snake.head) return;` then
`if (!snake.head->next) return;` (a single segment is kept), else walk
to the second-last segment and free the last one. -/
def erase_tail (body : List Seg) : List Seg :=
  match body with
  | [] => []
  | [h] => [h]
  | l => l.dropLast

/-- `move_snake` of snake_game.c: prepend a new head at
`head + (dir_x, dir_y)`; if it lands on the food cell, add 10 to the
score and respawn food (checked against the body including the new
head), otherwise drop the tail.  `none` models the null-head dereference
on an empty snake, or `spawn_food` never returning. -/
def move_snake (cands : List Seg) (s : SnakeState) : Option SnakeState :=
  match s.body with
  | [] => none
  | h :: t =>
    let new_head : Seg := ⟨h.x + s.dir_x, h.y + s.dir_y⟩
    let body1 := new_head :: h :: t
    if new_head.x == s.food.x && new_head.y == s.food.y then
      (spawn_food cands body1).map fun f =>
        { s with body := body1, food := f, score := s.score + 10 }
    else
      some { s with body := erase_tail body1 }

/-- The `switch (ch)` of snake_game.c's main loop, for one key event:
direction keys are guarded by `!paused` and by the no-180°-turn check,
`p`/`P` toggles pause, `q`/`Q` ends the game. -/
def input_key (ch : Int) (s : SnakeState) : SnakeState :=
  if ch = 259 then
    if !s.paused && s.dir_y != 1 then { s with dir_x := 0, dir_y := -1 } else s
  else if ch = 258 then
    if !s.paused && s.dir_y != -1 then { s with dir_x := 0, dir_y := 1 } else s
  else if ch = 260 then
    if !s.paused && s.dir_x != 1 then { s with dir_x := -1, dir_y := 0 } else s
  else if ch = 261 then
    if !s.paused && s.dir_x != -1 then { s with dir_x := 1, dir_y := 0 } else s
  else if ch = 112 ∨ ch = 80 then { s with paused := !s.paused }
  else if ch = 113 ∨ ch = 81 then { s with quit := true }
  else s

end SnakeA

namespace SnakeB

/-- `erase_tail` of the part_000 snake variant: no guards at all, the
walk `while (curr->next && curr->next->next)` dereferences
`curr->next` unconditionally afterwards, so a list of fewer than two
segments is a null dereference (`none`). -/
def erase_tail (body : List Seg) : Option (List Seg) :=
  match body with
  | [] => none
  | [_] => none
  | l => some l.dropLast

/-- `move_snake` of the part_000 snake variant: identical to
snake_game.c's except that the tail drop goes through the unguarded
`erase_tail`. -/
def move_snake (cands : List Seg) (s : SnakeState) : Option SnakeState :=
  match s.body with
  | [] => none
  | h :: t =>
    let new_head : Seg := ⟨h.x + s.dir_x, h.y + s.dir_y⟩
    let body1 := new_head :: h :: t
    if new_head.x == s.food.x && new_head.y == s.food.y then
      (spawn_food cands body1).map fun f =>
        { s with body := body1, food := f, score := s.score + 10 }
    else
      (erase_tail body1).map fun b => { s with body := b }

/-- The `switch (ch)` of the part_000 snake main loop, one key event;
textually identical key logic to snake_game.c's. -/
def input_key (ch : Int) (s : SnakeState) : SnakeState :=
  if ch = 259 then
    if !s.paused && s.dir_y != 1 then { s with dir_x := 0, dir_y := -1 } else s
  else if ch = 258 then
    if !s.paused && s.dir_y != -1 then { s with dir_x := 0, dir_y := 1 } else s
  else if ch = 260 then
    if !s.paused && s.dir_x != 1 then { s with dir_x := -1, dir_y := 0 } else s
  else if ch = 261 then
    if !s.paused && s.dir_x != -1 then { s with dir_x := 1, dir_y := 0 } else s
  else if ch = 112 ∨ ch = 80 then { s with paused := !s.paused }
  else if ch = 113 ∨ ch = 81 then { s with quit := true }
  else s

end SnakeB

/-! ## Shooter games

`shooting_game/shooting_game.c` and the first file inside
`src/unnamed/part_000` (`ascii_shooter.c`).  Both keep singly linked
lists of enemies and bullets with front insertion; the record layouts
are identical, so the two variants share the Lean types and differ in
their functions. -/

structure SBullet where
  x : Int
  y : Int
  dy : Int
deriving DecidableEq, Repr

structure SEnemy where
  x : Int
  y : Int
  tick_counter : Int
  speed_ticks : Int
deriving DecidableEq, Repr

structure SPlayer where
  x : Int
  y : Int
  lives : Int
  score : Int
deriving DecidableEq, Repr

structure ShooterState where
  max_x : Int
  max_y : Int
  player : SPlayer
  enemies : List SEnemy
  bullets : List SBullet
  game_over : Bool
  paused : Bool
deriving DecidableEq, Repr

/-- `absdiff` of part_000 line 93: `(a>b)? (a-b):(b-a)`. -/
def absdiff (a b : Int) : Int := if a > b then a - b else b - a

namespace Shooting

/-- `add_enemy` of shooting_game.c.  The malloc result is written to
unconditionally (`e->x=x;` with no null check), so a failed allocation
(`alloc = false`) dereferences the null pointer: there is no defined
resulting list, modelled as `none`. -/
def add_enemy (alloc : Bool) (x y speed : Int) (enemies : List SEnemy) :
    Option (List SEnemy) :=
  if alloc then
    some ({ x := x, y := y, tick_counter := 0, speed_ticks := speed } :: enemies)
  else
    none

/-- `add_bullet` of shooting_game.c; like `add_enemy`, no null check on
the malloc result. -/
def add_bullet (alloc : Bool) (x y dy : Int) (bullets : List SBullet) :
    Option (List SBullet) :=
  if alloc then
    some ({ x := x, y := y, dy := dy } :: bullets)
  else
    none

/-- `update_bullets` of shooting_game.c: each bullet moves by
`b->y += b->dy`, then is unlinked when `b->y <= 2 || b->y >= max_y-2`. -/
def update_bullets (max_y : Int) : List SBullet → List SBullet
  | [] => []
  | b :: rest =>
    let y1 := b.y + b.dy
    if y1 ≤ 2 ∨ max_y - 2 ≤ y1 then
      update_bullets max_y rest
    else
      { b with y := y1 } :: update_bullets max_y rest

/-- The player-bullet/enemy collision test of shooting_game.c's
`check_collisions` (line 311): `e->y==b->y && abs(e->x-b->x)<=1`. -/
def hit_test (e : SEnemy) (b : SBullet) : Prop :=
  e.y = b.y ∧ (e.x - b.x).natAbs ≤ 1

instance (e : SEnemy) (b : SBullet) : Decidable (hit_test e b) := by
  unfold hit_test
  infer_instance

/-- `process_input` of shooting_game.c, for one key event.  There is no
pause guard on the movement and shoot branches; `alloc` is the malloc
result for the bullet spawn of the space key, and `none` models the
unchecked null dereference inside `add_bullet` when it fails. -/
def process_input_key (alloc : Bool) (ch : Int) (s : ShooterState) :
    Option ShooterState :=
  if ch = 260 then
    some (if 2 < s.player.x then
      { s with player := { s.player with x := s.player.x - 2 } } else s)
  else if ch = 261 then
    some (if s.player.x < s.max_x - 3 then
      { s with player := { s.player with x := s.player.x + 2 } } else s)
  else if ch = 32 then
    (add_bullet alloc s.player.x (s.player.y - 1) (-1) s.bullets).map
      fun bs => { s with bullets := bs }
  else if ch = 112 ∨ ch = 80 then some { s with paused := !s.paused }
  else if ch = 113 ∨ ch = 81 then some { s with game_over := true }
  else some s

end Shooting

namespace Shooter2

/-- `add_enemy` of the part_000 shooter: `if (!e) return;` silently
drops the spawn on allocation failure, otherwise front-links the new
record. -/
def add_enemy (alloc : Bool) (x y speed_ticks : Int) (enemies : List SEnemy) :
    List SEnemy :=
  if alloc then
    { x := x, y := y, tick_counter := 0, speed_ticks := speed_ticks } :: enemies
  else
    enemies

/-- `add_bullet` of the part_000 shooter: `if (!b) return;` silently
drops the spawn on allocation failure. -/
def add_bullet (alloc : Bool) (x y dy : Int) (bullets : List SBullet) :
    List SBullet :=
  if alloc then
    { x := x, y := y, dy := dy } :: bullets
  else
    bullets

/-- `update_bullets` of the part_000 shooter: `b->y += b->dy *
BULLET_SPEED` with `BULLET_SPEED = 1`, then unlink when
`b->y <= 2 || b->y >= max_y - 2`. -/
def update_bullets (max_y : Int) : List SBullet → List SBullet
  | [] => []
  | b :: rest =>
    let y1 := b.y + b.dy * 1
    if y1 ≤ 2 ∨ max_y - 2 ≤ y1 then
      update_bullets max_y rest
    else
      { b with y := y1 } :: update_bullets max_y rest

/-- The player-bullet/enemy collision test of the part_000 shooter's
`check_collisions` (line 413): `e->y == pb->y && absdiff(e->x, pb->x) <= 1`. -/
def hit_test (e : SEnemy) (b : SBullet) : Prop :=
  e.y = b.y ∧ absdiff e.x b.x ≤ 1

instance (e : SEnemy) (b : SBullet) : Decidable (hit_test e b) := by
  unfold hit_test
  infer_instance

/-- `process_input` of the part_000 shooter, for one key event: the
movement and shoot branches are guarded by `if (!paused)`, `p`/`P`
toggles pause, `q`/`Q` sets `game_over`. -/
def process_input_key (alloc : Bool) (ch : Int) (s : ShooterState) :
    ShooterState :=
  if ch = 260 ∨ ch = 97 ∨ ch = 65 then
    if !s.paused then
      (if 2 < s.player.x then
        { s with player := { s.player with x := s.player.x - 2 } } else s)
    else s
  else if ch = 261 ∨ ch = 100 ∨ ch = 68 then
    if !s.paused then
      (if s.player.x < s.max_x - 3 then
        { s with player := { s.player with x := s.player.x + 2 } } else s)
    else s
  else if ch = 32 then
    if !s.paused then
      { s with bullets := add_bullet alloc s.player.x (s.player.y - 1) (-1) s.bullets }
    else s
  else if ch = 112 ∨ ch = 80 then { s with paused := !s.paused }
  else if ch = 113 ∨ ch = 81 then { s with game_over := true }
  else s

end Shooter2

/-! ## Platformer (mario_game.c)

World coordinates are rational (`float` in C); the map is the mutable
2-D character grid built by `load_map`, with `map_w`/`map_h` derived
from it exactly as `load_map` computes the global bounds. -/

namespace Mario

def GRAVITY : ℚ := 3/5

def JUMP_VELO : ℚ := -8

def MOVE_SPEED : ℚ := 1

def MAX_ENEMIES : Nat := 128

structure Player where
  x : ℚ
  y : ℚ
  vy : ℚ
  facing : Int
  on_ground : Bool
  lives : Int
  score : Int
deriving DecidableEq, Repr

structure Enemy where
  alive : Bool
  x : Int
  y : Int
  dir : Int
  left_bound : Int
  right_bound : Int
deriving DecidableEq, Repr

structure State where
  map : List (List Char)
  player : Player
  cam_x : Int
  paused : Bool
  game_over : Bool
  win : Bool
  enemies : List Enemy
deriving DecidableEq, Repr

/-- The global `map_h` set by `load_map`: number of rows. -/
def map_h (m : List (List Char)) : Int := m.length

/-- The global `map_w` set by `load_map`: maximum row length. -/
def map_w (m : List (List Char)) : Int := ((m.map List.length).foldr max 0 : Nat)

/-- `map_at`: bounds-checked grid read returning the empty tile outside
the map. -/
def map_at (m : List (List Char)) (mx my : Int) : Char :=
  if mx < 0 ∨ my < 0 ∨ map_h m ≤ my ∨ map_w m ≤ mx then ' '
  else (m.getD my.toNat []).getD mx.toNat ' '

/-- `set_map_char`: bounds-checked grid write (coin removal etc.). -/
def set_map_char (m : List (List Char)) (mx my : Int) (c : Char) :
    List (List Char) :=
  if mx < 0 ∨ my < 0 ∨ map_h m ≤ my ∨ map_w m ≤ mx then m
  else m.set my.toNat ((m.getD my.toNat []).set mx.toNat c)

/-- `load_map`: copy the source strings into a mutable grid, padding
every row with spaces to the maximum width. -/
def load_map (src : List String) : List (List Char) :=
  let w := (src.map String.length).foldr max 0
  src.map fun row => row.data ++ List.replicate (w - row.length) ' '

/-- Run of `n` copies of a character (the map rows are mostly runs of
blanks and ground tiles). -/
def char_run (c : Char) (n : Nat) : String := String.mk (List.replicate n c)

/-- Run of `n` spaces. -/
def spaces (n : Nat) : String := char_run ' ' n

/-- The `level_map` string array of mario_game.c (without the final
NULL terminator), each row written as its runs of spaces and tiles. -/
def level_map : List String :=
  [
    spaces 80,
    spaces 80,
    spaces 80,
    spaces 80,
    spaces 80,
    spaces 80,
    spaces 80,
    spaces 27 ++ "o" ++ spaces 52,
    spaces 16 ++ "#####" ++ spaces 59,
    spaces 80,
    spaces 9 ++ "o" ++ spaces 70,
    spaces 4 ++ "#######" ++ spaces 52 ++ ">" ++ spaces 15,
    spaces 80,
    spaces 30 ++ "###" ++ spaces 45,
    spaces 80,
    spaces 16 ++ "o" ++ spaces 63,
    spaces 11 ++ "#####" ++ spaces 64,
    spaces 80,
    spaces 61 ++ "E" ++ spaces 16,
    char_run '=' 44 ++ spaces 5 ++ char_run '=' 29,
    spaces 80,
    spaces 80
  ]

/-- `tile_collide`: a tile is solid when it holds '#' or '='. -/
def tile_collide (m : List (List Char)) (tx ty : Int) : Bool :=
  let ch := map_at m tx ty
  ch == '#' || ch == '='

/-- The spawn search of `reset_level`: the first solid tile in row-major
order.  Returns `none` on a map with no '=' or '#'. -/
def first_solid (m : List (List Char)) : Option (Int × Int) :=
  (List.range (map_h m).toNat).findSome? fun r =>
    (List.range (map_w m).toNat).findSome? fun c =>
      let ch := map_at m (c : Int) (r : Int)
      if ch == '=' || ch == '#' then some ((c : Int), (r : Int)) else none

/-- The spawn coordinate `reset_level` computes: defaults `(2, 2)`, else
the column of the first solid tile and two rows above it (clamped to row
1). -/
def find_spawn (m : List (List Char)) : Int × Int :=
  match first_solid m with
  | some cr => (cr.1, if cr.2 - 2 < 1 then 1 else cr.2 - 2)
  | none => (2, 2)

/-- The `while (L-1 >=0 && map_at(L-1, r) == ' ') L--;` patrol-bound
expansion of `spawn_enemies_from_map`, with explicit fuel (the loop
moves left at most `map_w` times). -/
def expand_left (m : List (List Char)) (r : Int) : Nat → Int → Int
  | 0, l => l
  | fuel + 1, l =>
    if 0 ≤ l - 1 ∧ map_at m (l - 1) r = ' ' then expand_left m r fuel (l - 1)
    else l

/-- The `while (R+1 < map_w && map_at(R+1, r) == ' ') R++;` expansion. -/
def expand_right (m : List (List Char)) (r : Int) : Nat → Int → Int
  | 0, l => l
  | fuel + 1, l =>
    if l + 1 < map_w m ∧ map_at m (l + 1) r = ' ' then expand_right m r fuel (l + 1)
    else l

/-- Row-major list of all grid positions `(r, c)`, the iteration order of
`spawn_enemies_from_map`. -/
def positions (m : List (List Char)) : List (Int × Int) :=
  ((List.range (map_h m).toNat).map fun r =>
    (List.range (map_w m).toNat).map fun c => ((r : Int), (c : Int))).flatten

/-- One cell of the `spawn_enemies_from_map` scan: on an 'E' marker,
append an enemy (capped at `MAX_ENEMIES`, direction from the `rand()%2`
draw, patrol bounds expanded over the current grid) and clear the
marker. -/
def spawn_enemies_step (rng : Nat → Nat)
    (acc : List (List Char) × List Enemy) (rc : Int × Int) :
    List (List Char) × List Enemy :=
  let r := rc.1
  let c := rc.2
  if map_at acc.1 c r == 'E' then
    let es :=
      if acc.2.length < MAX_ENEMIES then
        acc.2 ++ [{ alive := true, x := c, y := r,
                    dir := if rng acc.2.length % 2 ≠ 0 then 1 else -1,
                    left_bound := expand_left acc.1 r (map_w acc.1).toNat c,
                    right_bound := expand_right acc.1 r (map_w acc.1).toNat c }]
      else acc.2
    (set_map_char acc.1 c r ' ', es)
  else acc

/-- `spawn_enemies_from_map`: scan the grid row-major, spawning an enemy
for every 'E' and clearing the marker; returns the updated grid and the
enemy array (in index order). -/
def spawn_enemies_from_map (rng : Nat → Nat) (m : List (List Char)) :
    List (List Char) × List Enemy :=
  (positions m).foldl (spawn_enemies_step rng) (m, [])

/-- `reset_level`: place the player half a column right of the spawn
column, two rows above the first solid tile, with 3 lives and 0 score;
reset the camera and the flags; rebuild the enemy array from the map's
'E' markers. -/
def reset_level (rng : Nat → Nat) (s : State) : State :=
  let spawn := find_spawn s.map
  let me := spawn_enemies_from_map rng s.map
  { map := me.1,
    player := { x := (spawn.1 : ℚ) + 1/2, y := (spawn.2 : ℚ), vy := 0,
                facing := 1, on_ground := false, lives := 3, score := 0 },
    cam_x := 0, paused := false, game_over := false, win := false,
    enemies := me.2 }

/-- `new_y` of `update_physics`: position after integrating the
post-gravity velocity, scaled by 0.1. -/
def new_y_of (p : Player) : ℚ := p.y + (p.vy + GRAVITY) * (1/10)

/-- `left_tile` of `update_physics`. -/
def left_tile_of (p : Player) : Int := ifloor (p.x - 1)

/-- `right_tile` of `update_physics`. -/
def right_tile_of (p : Player) : Int := ifloor (p.x + 1)

/-- `foot_tile` of `update_physics`: the projected foot row. -/
def foot_tile_of (p : Player) : Int := ifloor (new_y_of p + 9/10)

/-- The gravity/collision part of `update_physics` (lines 370-401):
apply gravity to `vy`; falling (`vy >= 0`) either snaps onto a solid
tile under the projected foot row or free-falls; rising either bumps the
head on a solid tile or keeps moving up. -/
def phys_player (m : List (List Char)) (p : Player) : Player :=
  let vy1 := p.vy + GRAVITY
  if 0 ≤ vy1 then
    if tile_collide m (left_tile_of p) (foot_tile_of p) ||
        tile_collide m (right_tile_of p) (foot_tile_of p) then
      { p with on_ground := true, vy := 0, y := (foot_tile_of p : ℚ) - 1 }
    else
      { p with on_ground := false, vy := vy1, y := new_y_of p }
  else
    let head_tile := ifloor (new_y_of p)
    if tile_collide m (left_tile_of p) head_tile ||
        tile_collide m (right_tile_of p) head_tile then
      { p with vy := 0, y := (head_tile : ℚ) + 1 }
    else
      { p with y := new_y_of p, vy := vy1, on_ground := false }

/-- The `if (player.y > map_h - 1)` part of `update_physics` (lines
403-411): falling past the map decrements lives, then either sets
`game_over` (no lives left) or runs the full `reset_level`. -/
def fall_check (rng : Nat → Nat) (s : State) : State :=
  if (map_h s.map : ℚ) - 1 < s.player.y then
    let lives1 := s.player.lives - 1
    if lives1 ≤ 0 then
      { s with player := { s.player with lives := lives1 }, game_over := true }
    else
      reset_level rng { s with player := { s.player with lives := lives1 } }
  else s

/-- The coin/exit part of `update_physics` (lines 413-422): the tile
under the feet grants 5 score and is cleared when it is 'o', or sets
`win` when it is '>'. -/
def coin_exit_check (s : State) : State :=
  let px_floor := ifloor s.player.x
  let py_floor := ifloor (s.player.y + 9/10)
  let under := map_at s.map px_floor py_floor
  if under = 'o' then
    { s with player := { s.player with score := s.player.score + 5 },
             map := set_map_char s.map px_floor py_floor ' ' }
  else if under = '>' then { s with win := true }
  else s

/-- `update_physics`: gravity/collision, then the fall-off-map check,
then coin pickup / exit detection. -/
def update_physics (rng : Nat → Nat) (s : State) : State :=
  coin_exit_check (fall_check rng { s with player := phys_player s.map s.player })

/-- The body of `handle_input`'s key loop for one key event: `p`/`P`
toggles pause, `q`/`Q` sets `game_over`, everything else is dropped
while paused or won; otherwise left/right move with tile blocking and
space/`w`/up jumps from the ground. -/
def handle_input_key (ch : Int) (s : State) : State :=
  if ch = 112 ∨ ch = 80 then { s with paused := !s.paused }
  else if ch = 113 ∨ ch = 81 then { s with game_over := true }
  else if s.paused ∨ s.win then s
  else if ch = 260 ∨ ch = 97 ∨ ch = 65 then
    let nx := s.player.x - MOVE_SPEED
    let lt := ifloor (nx - 1)
    let y_top := ifloor s.player.y
    let y_bot := ifloor (s.player.y + 9/10)
    let p1 :=
      if !(tile_collide s.map lt y_top) && !(tile_collide s.map lt y_bot) then
        { s.player with x := nx }
      else
        { s.player with x := ((lt + 1 : Int) : ℚ) + 1 }
    { s with player := { p1 with facing := -1 } }
  else if ch = 261 ∨ ch = 100 ∨ ch = 68 then
    let nx := s.player.x + MOVE_SPEED
    let rt := ifloor (nx + 1)
    let y_top := ifloor s.player.y
    let y_bot := ifloor (s.player.y + 9/10)
    let p1 :=
      if !(tile_collide s.map rt y_top) && !(tile_collide s.map rt y_bot) then
        { s.player with x := nx }
      else
        { s.player with x := ((rt - 1 : Int) : ℚ) - 1 }
    { s with player := { p1 with facing := 1 } }
  else if ch = 32 ∨ ch = 119 ∨ ch = 87 ∨ ch = 259 then
    if s.player.on_ground then
      { s with player := { s.player with vy := JUMP_VELO, on_ground := false } }
    else s
  else s

/-- The body of `check_enemy_collisions`' loop for enemy index `i`,
with the player tile `(ptx, pty)` fixed at loop entry as in the C code:
on tolerant contact, a falling player near the enemy's top stomps it
(remove enemy, +20 score, bounce), otherwise the player loses a life and
is respawned at the fixed coordinate (2.5, 2.0) (or the game ends when
no lives remain). -/
def check_enemy_step (ptx pty : Int) (acc : State) (i : Nat) : State :=
  match acc.enemies.get? i with
  | none => acc
  | some e =>
    if !e.alive then acc
    else if (e.x - ptx).natAbs ≤ 1 ∧ (e.y - pty).natAbs ≤ 1 then
      if 0 < acc.player.vy ∧ acc.player.y + 9/10 - (e.y : ℚ) < 3/4 then
        { acc with
          enemies := acc.enemies.set i { e with alive := false },
          player := { acc.player with
                      score := acc.player.score + 20,
                      vy := JUMP_VELO * (3/5), on_ground := false } }
      else
        let lives1 := acc.player.lives - 1
        if lives1 ≤ 0 then
          { acc with
            player := { acc.player with lives := lives1 },
            game_over := true }
        else
          { acc with
            player := { acc.player with
                        lives := lives1, x := 5/2, y := 2, vy := 0 } }
    else acc

/-- `check_enemy_collisions`: fold the per-enemy check over all enemy
indices, with the player tile computed once at entry. -/
def check_enemy_collisions (s : State) : State :=
  let ptx := ifloor s.player.x
  let pty := ifloor (s.player.y + 1/2)
  (List.range s.enemies.length).foldl (check_enemy_step ptx pty) s

end Mario


/-! ## Concrete states used by witnesses and counterexamples -/

/-- A fixed `rand()` stream (every draw 0). -/
def rng0 : Nat → Nat := fun _ => 0

/-- The level grid of mario_game.c as `load_map` builds it. -/
def level_grid : List (List Char) := Mario.load_map Mario.level_map

/-- A tiny 2-row grid: an empty row over a solid '###' row. -/
def small_grid : List (List Char) := Mario.load_map ["", "###"]

/-- A platformer state with the player far below the small grid's bottom
row, 3 lives and a nonzero score. -/
def fall_state : Mario.State :=
  { map := small_grid,
    player := { x := 1/2, y := 30, vy := 0, facing := 1, on_ground := false,
                lives := 3, score := 7 },
    cam_x := 0, paused := false, game_over := false, win := false,
    enemies := [] }

/-- A platformer state with the player one row above a '#' platform,
about to land. -/
def landing_state : Mario.State :=
  { map := Mario.load_map ["", "", "###"],
    player := { x := 3/2, y := 6/5, vy := 0, facing := 1, on_ground := false,
                lives := 3, score := 0 },
    cam_x := 0, paused := false, game_over := false, win := false,
    enemies := [] }

/-- A platformer state standing still on an enemy's tile (a non-stomp
contact: `vy = 0`). -/
def contact_state : Mario.State :=
  { map := level_grid,
    player := { x := 10, y := 10, vy := 0, facing := 1, on_ground := false,
                lives := 3, score := 0 },
    cam_x := 0, paused := false, game_over := false, win := false,
    enemies := [{ alive := true, x := 10, y := 10, dir := 1,
                  left_bound := 0, right_bound := 20 }] }

/-- A paused platformer state. -/
def paused_mario_state : Mario.State :=
  { map := small_grid,
    player := { x := 10, y := 10, vy := 0, facing := 1, on_ground := false,
                lives := 3, score := 0 },
    cam_x := 0, paused := true, game_over := false, win := false,
    enemies := [] }

/-- A paused shooter state. -/
def paused_shooter_state : ShooterState :=
  { max_x := 80, max_y := 24,
    player := { x := 10, y := 21, lives := 3, score := 0 },
    enemies := [], bullets := [], game_over := false, paused := true }

/-- A paused snake state. -/
def paused_snake_state : SnakeState :=
  { body := [⟨5, 5⟩], dir_x := 1, dir_y := 0, food := ⟨9, 9⟩,
    score := 0, paused := true, quit := false }

/-! ### Snake lemmas -/

lemma spawn_food_not_mem {cands body : List Seg} {c : Seg}
    (h : spawn_food cands body = some c) : ∀ seg ∈ body, seg ≠ c := by
  induction cands with
  | nil => simp [spawn_food] at h
  | cons cand rest ih =>
    rw [spawn_food] at h
    by_cases hc : body.any (fun seg => seg.x == cand.x && seg.y == cand.y)
    · rw [if_pos hc] at h
      exact ih h
    · rw [if_neg hc] at h
      cases h
      intro seg hseg heq
      apply hc
      rw [List.any_eq_true]
      exact ⟨seg, hseg, by simp [heq]⟩

lemma seg_eq_iff (a b : Int) (c : Seg) : (⟨a, b⟩ : Seg) = c ↔ a = c.x ∧ b = c.y := by
  cases c
  simp [Seg.mk.injEq]

lemma eraseA_cons_cons (a b : Seg) (t : List Seg) :
    SnakeA.erase_tail (a :: b :: t) = a :: (b :: t).dropLast := rfl

lemma eraseB_cons_cons (a b : Seg) (t : List Seg) :
    SnakeB.erase_tail (a :: b :: t) = some (a :: (b :: t).dropLast) := rfl

/-- C5.  In both snake variants, for every un-paused tick, after
`move_snake` the head cell equals the previous head cell plus the
current heading vector; and for a snake of body length at least 2 the
body length grows by exactly one on a tick where the new head cell
equals the food cell, and is unchanged on every other tick. -/
theorem snake_move_head_and_length (cands : List Seg) (s : SnakeState)
    (h : Seg) (t : List Seg) (hbody : s.body = h :: t) :
    (∀ r, SnakeA.move_snake cands s = some r →
      r.body.head? = some ⟨h.x + s.dir_x, h.y + s.dir_y⟩ ∧
      (2 ≤ s.body.length →
        ((⟨h.x + s.dir_x, h.y + s.dir_y⟩ : Seg) = s.food →
          r.body.length = s.body.length + 1) ∧
        ((⟨h.x + s.dir_x, h.y + s.dir_y⟩ : Seg) ≠ s.food →
          r.body.length = s.body.length))) ∧
    (∀ r, SnakeB.move_snake cands s = some r →
      r.body.head? = some ⟨h.x + s.dir_x, h.y + s.dir_y⟩ ∧
      (2 ≤ s.body.length →
        ((⟨h.x + s.dir_x, h.y + s.dir_y⟩ : Seg) = s.food →
          r.body.length = s.body.length + 1) ∧
        ((⟨h.x + s.dir_x, h.y + s.dir_y⟩ : Seg) ≠ s.food →
          r.body.length = s.body.length))) := by
  constructor
  · intro r hr
    simp only [SnakeA.move_snake, hbody] at hr
    by_cases hfb : ((h.x + s.dir_x == s.food.x) && (h.y + s.dir_y == s.food.y)) = true
    · have hf : (⟨h.x + s.dir_x, h.y + s.dir_y⟩ : Seg) = s.food := by
        have h12 := hfb
        simp only [Bool.and_eq_true, beq_iff_eq] at h12
        exact (seg_eq_iff _ _ _).mpr h12
      rw [if_pos hfb] at hr
      rcases Option.map_eq_some'.mp hr with ⟨f, hsf, hfr⟩
      subst hfr
      refine ⟨by simp, fun _ => ⟨fun _ => ?_, fun hne => absurd hf hne⟩⟩
      simp [hbody]
    · have hf : (⟨h.x + s.dir_x, h.y + s.dir_y⟩ : Seg) ≠ s.food := by
        intro hc
        rcases (seg_eq_iff _ _ _).mp hc with ⟨h1, h2⟩
        exact hfb (by simp [h1, h2])
      rw [if_neg hfb] at hr
      cases Option.some.inj hr
      refine ⟨?_, fun _ => ⟨fun hfe => absurd hfe hf, fun _ => ?_⟩⟩
      · show (SnakeA.erase_tail ((⟨h.x + s.dir_x, h.y + s.dir_y⟩ : Seg) :: h :: t)).head? =
          some ⟨h.x + s.dir_x, h.y + s.dir_y⟩
        cases t with
        | nil => rfl
        | cons b t2 => rw [eraseA_cons_cons]; rfl
      · show (SnakeA.erase_tail ((⟨h.x + s.dir_x, h.y + s.dir_y⟩ : Seg) :: h :: t)).length =
          s.body.length
        rw [eraseA_cons_cons, hbody]
        simp [List.length_dropLast]
  · intro r hr
    simp only [SnakeB.move_snake, hbody] at hr
    by_cases hfb : ((h.x + s.dir_x == s.food.x) && (h.y + s.dir_y == s.food.y)) = true
    · have hf : (⟨h.x + s.dir_x, h.y + s.dir_y⟩ : Seg) = s.food := by
        have h12 := hfb
        simp only [Bool.and_eq_true, beq_iff_eq] at h12
        exact (seg_eq_iff _ _ _).mpr h12
      rw [if_pos hfb] at hr
      rcases Option.map_eq_some'.mp hr with ⟨f, hsf, hfr⟩
      subst hfr
      refine ⟨by simp, fun _ => ⟨fun _ => ?_, fun hne => absurd hf hne⟩⟩
      simp [hbody]
    · have hf : (⟨h.x + s.dir_x, h.y + s.dir_y⟩ : Seg) ≠ s.food := by
        intro hc
        rcases (seg_eq_iff _ _ _).mp hc with ⟨h1, h2⟩
        exact hfb (by simp [h1, h2])
      rw [if_neg hfb, eraseB_cons_cons] at hr
      rcases Option.map_eq_some'.mp hr with ⟨b, hb, hbr⟩
      cases Option.some.inj hb
      subst hbr
      refine ⟨by simp, fun _ => ⟨fun hfe => absurd hfe hf, fun _ => ?_⟩⟩
      rw [hbody]
      simp [List.length_dropLast]

/-- Witness for C5: a concrete 2-segment snake heading right eats no
food, its new head is the old head plus the heading vector, and its
length is unchanged. -/
theorem snake_move_head_and_length_witness :
    ({ body := [⟨6, 5⟩, ⟨5, 5⟩], dir_x := 1, dir_y := 0, food := ⟨9, 9⟩,
       score := 0, paused := false, quit := false } : SnakeState).body.head? =
      some ⟨5 + 1, 5 + 0⟩ ∧
    ({ body := [⟨6, 5⟩, ⟨5, 5⟩], dir_x := 1, dir_y := 0, food := ⟨9, 9⟩,
       score := 0, paused := false, quit := false } : SnakeState).body.length =
      ({ body := [⟨5, 5⟩, ⟨4, 5⟩], dir_x := 1, dir_y := 0, food := ⟨9, 9⟩,
         score := 0, paused := false, quit := false } : SnakeState).body.length := by
  have h := (snake_move_head_and_length []
    { body := [⟨5, 5⟩, ⟨4, 5⟩], dir_x := 1, dir_y := 0,
      food := ⟨9, 9⟩, score := 0, paused := false, quit := false }
    ⟨5, 5⟩ [⟨4, 5⟩] rfl).1
    { body := [⟨6, 5⟩, ⟨5, 5⟩], dir_x := 1, dir_y := 0,
      food := ⟨9, 9⟩, score := 0, paused := false, quit := false }
    (by decide)
  exact ⟨h.1, (h.2 (by decide)).2 (by decide)⟩

/-- C9.  In both snake variants, whenever `spawn_food` returns, the
chosen food cell differs from every cell occupied by a snake segment:
every candidate draw is checked against the whole body and rejected on
any match before acceptance. -/
theorem spawn_food_avoids_body (cands body : List Seg) (c : Seg)
    (h : spawn_food cands body = some c) : ∀ seg ∈ body, seg ≠ c :=
  spawn_food_not_mem h

/-- Witness for C9: with candidates (1,1) then (2,2) against a body
occupying (1,1), the accepted cell (2,2) differs from the body cell. -/
theorem spawn_food_avoids_body_witness :
    (⟨1, 1⟩ : Seg) ≠ (⟨2, 2⟩ : Seg) :=
  spawn_food_avoids_body [⟨1, 1⟩, ⟨2, 2⟩] [⟨1, 1⟩] ⟨2, 2⟩ (by decide)
    ⟨1, 1⟩ (by decide)

/-! ### Shooter theorems -/

/-- C4 counterexample.  In shooting_game.c a failed enemy allocation is
not "silently skipped with the list unchanged": `add_enemy` writes
through the null malloc result, so there is no defined resulting list at
all (`none`), rather than the unchanged empty list. -/
theorem shooting_add_enemy_alloc_failure_not_skip :
    Shooting.add_enemy false 5 3 8 [] ≠ some [] := by
  decide

/-- C4 amended.  Only the part_000 shooter silently skips a failed
allocation, leaving the enemy and bullet lists unchanged with no record
linked; shooting_game.c never checks the malloc result, so a failed
allocation there dereferences the null pointer instead of skipping the
spawn. -/
theorem add_entity_alloc_failure (x y sp dy : Int)
    (es : List SEnemy) (bs : List SBullet) :
    Shooter2.add_enemy false x y sp es = es ∧
    Shooter2.add_bullet false x y dy bs = bs ∧
    Shooting.add_enemy false x y sp es = none ∧
    Shooting.add_bullet false x y dy bs = none := by
  refine ⟨rfl, rfl, rfl, rfl⟩

/-- C6.  In both shooter collision tests, a player bullet and an enemy
on the same row are detected as colliding exactly when the absolute
column difference is at most 1, and a same-row pair at column distance 2
is never detected. -/
theorem hit_test_tolerance (e : SEnemy) (b : SBullet) :
    (Shooting.hit_test e b ↔ e.y = b.y ∧ |e.x - b.x| ≤ 1) ∧
    (Shooter2.hit_test e b ↔ e.y = b.y ∧ |e.x - b.x| ≤ 1) ∧
    (e.y = b.y ∧ |e.x - b.x| = 2 →
      ¬Shooting.hit_test e b ∧ ¬Shooter2.hit_test e b) := by
  have habs : |e.x - b.x| = ((e.x - b.x).natAbs : Int) := Int.abs_eq_natAbs _
  have habsd : absdiff e.x b.x = |e.x - b.x| := by
    unfold absdiff
    rcases le_or_lt e.x b.x with hle | hlt
    · rw [if_neg (not_lt.mpr hle), abs_of_nonpos (by omega), neg_sub]
    · rw [if_pos hlt, abs_of_pos (by omega)]
  refine ⟨?_, ?_, ?_⟩
  · unfold Shooting.hit_test
    rw [habs]
    constructor
    · rintro ⟨h1, h2⟩
      exact ⟨h1, by omega⟩
    · rintro ⟨h1, h2⟩
      exact ⟨h1, by omega⟩
  · unfold Shooter2.hit_test
    rw [habsd]
  · rintro ⟨h1, h2⟩
    constructor
    · rintro ⟨_, h3⟩
      rw [habs] at h2
      omega
    · rintro ⟨_, h3⟩
      rw [habsd] at h3
      omega

/-- Witness for C6: an enemy and a bullet sharing row 4 at columns 7 and
9 (distance 2) are not detected by either variant's test. -/
theorem hit_test_tolerance_witness :
    ¬Shooting.hit_test ⟨7, 4, 0, 8⟩ ⟨9, 4, -1⟩ ∧
    ¬Shooter2.hit_test ⟨7, 4, 0, 8⟩ ⟨9, 4, -1⟩ :=
  (hit_test_tolerance ⟨7, 4, 0, 8⟩ ⟨9, 4, -1⟩).2.2 ⟨rfl, by decide⟩

/-- C8.  In both shooter variants, after `update_bullets` every bullet
remaining in the list sits strictly inside the vertical play bounds
(`2 < y < max_y - 2`); a bullet whose step lands on or past a bound is
unlinked during that same update. -/
theorem update_bullets_in_bounds (max_y : Int) (bs : List SBullet)
    (b : SBullet) :
    (b ∈ Shooting.update_bullets max_y bs → 2 < b.y ∧ b.y < max_y - 2) ∧
    (b ∈ Shooter2.update_bullets max_y bs → 2 < b.y ∧ b.y < max_y - 2) := by
  constructor
  · intro hmem
    induction bs with
    | nil => simp [Shooting.update_bullets] at hmem
    | cons c rest ih =>
      rw [Shooting.update_bullets] at hmem
      by_cases hrem : c.y + c.dy ≤ 2 ∨ max_y - 2 ≤ c.y + c.dy
      · rw [if_pos hrem] at hmem
        exact ih hmem
      · rw [if_neg hrem] at hmem
        rcases List.mem_cons.mp hmem with hb | hb
        · subst hb
          push_neg at hrem
          exact ⟨hrem.1, hrem.2⟩
        · exact ih hb
  · intro hmem
    induction bs with
    | nil => simp [Shooter2.update_bullets] at hmem
    | cons c rest ih =>
      rw [Shooter2.update_bullets] at hmem
      by_cases hrem : c.y + c.dy * 1 ≤ 2 ∨ max_y - 2 ≤ c.y + c.dy * 1
      · rw [if_pos hrem] at hmem
        exact ih hmem
      · rw [if_neg hrem] at hmem
        rcases List.mem_cons.mp hmem with hb | hb
        · subst hb
          push_neg at hrem
          exact ⟨hrem.1, hrem.2⟩
        · exact ih hb

/-- Witness for C8: with `max_y = 20`, the upward bullet at row 10 moves
to row 9, stays in the list, and 2 < 9 < 18. -/
theorem update_bullets_in_bounds_witness :
    2 < (⟨5, 9, -1⟩ : SBullet).y ∧ (⟨5, 9, -1⟩ : SBullet).y < 20 - 2 :=
  (update_bullets_in_bounds 20 [⟨5, 10, -1⟩] ⟨5, 9, -1⟩).1 (by decide)


/-! ### Platformer lemmas -/

lemma ifloor_eq_of (q : ℚ) (n : Int) (h1 : (n : ℚ) ≤ q) (h2 : q < n + 1) :
    ifloor q = n := by
  rw [ifloor, Int.floor_eq_iff]
  exact ⟨h1, h2⟩

lemma tile_collide_bounds {m : List (List Char)} {tx ty : Int}
    (h : Mario.tile_collide m tx ty = true) :
    0 ≤ tx ∧ 0 ≤ ty ∧ ty < Mario.map_h m ∧ tx < Mario.map_w m := by
  unfold Mario.tile_collide Mario.map_at at h
  by_cases hb : tx < 0 ∨ ty < 0 ∨ Mario.map_h m ≤ ty ∨ Mario.map_w m ≤ tx
  · rw [if_pos hb] at h
    exact absurd h (by decide)
  · push_neg at hb
    exact ⟨by omega, by omega, by omega, by omega⟩

lemma coin_exit_y (s : Mario.State) :
    (Mario.coin_exit_check s).player.y = s.player.y := by
  simp only [Mario.coin_exit_check]
  split_ifs <;> rfl

lemma coin_exit_vy (s : Mario.State) :
    (Mario.coin_exit_check s).player.vy = s.player.vy := by
  simp only [Mario.coin_exit_check]
  split_ifs <;> rfl

lemma coin_exit_on_ground (s : Mario.State) :
    (Mario.coin_exit_check s).player.on_ground = s.player.on_ground := by
  simp only [Mario.coin_exit_check]
  split_ifs <;> rfl

lemma coin_exit_lives (s : Mario.State) :
    (Mario.coin_exit_check s).player.lives = s.player.lives := by
  simp only [Mario.coin_exit_check]
  split_ifs <;> rfl

lemma coin_exit_game_over (s : Mario.State) :
    (Mario.coin_exit_check s).game_over = s.game_over := by
  simp only [Mario.coin_exit_check]
  split_ifs <;> rfl

lemma phys_player_lives (m : List (List Char)) (p : Mario.Player) :
    (Mario.phys_player m p).lives = p.lives := by
  simp only [Mario.phys_player]
  split_ifs <;> rfl

/-- C7.  In the platformer, for a physics update with `vy >= 0` whose
projected foot row overlaps a solid tile under either occupied column,
the player is snapped to stand exactly one row above that tile
(`y = foot_tile - 1`), `vy` is reset to 0 and `on_ground` becomes true;
the subsequent fall check and coin/exit check of the same update leave
these fields untouched. -/
theorem mario_landing_snap (rng : Nat → Nat) (s : Mario.State)
    (hvy : 0 ≤ s.player.vy)
    (hcol : Mario.tile_collide s.map (Mario.left_tile_of s.player)
        (Mario.foot_tile_of s.player) = true ∨
      Mario.tile_collide s.map (Mario.right_tile_of s.player)
        (Mario.foot_tile_of s.player) = true) :
    (Mario.update_physics rng s).player.y = (Mario.foot_tile_of s.player : ℚ) - 1 ∧
    (Mario.update_physics rng s).player.vy = 0 ∧
    (Mario.update_physics rng s).player.on_ground = true := by
  have hvy1 : (0 : ℚ) ≤ s.player.vy + Mario.GRAVITY := by
    have hg : (0 : ℚ) < Mario.GRAVITY := by norm_num [Mario.GRAVITY]
    linarith
  have hcolb : (Mario.tile_collide s.map (Mario.left_tile_of s.player)
        (Mario.foot_tile_of s.player) ||
      Mario.tile_collide s.map (Mario.right_tile_of s.player)
        (Mario.foot_tile_of s.player)) = true := by
    rcases hcol with h | h <;> simp [h]
  have hphys : Mario.phys_player s.map s.player =
      { s.player with
        on_ground := true, vy := 0,
        y := (Mario.foot_tile_of s.player : ℚ) - 1 } := by
    simp only [Mario.phys_player]
    rw [if_pos hvy1, if_pos hcolb]
  have hfoot_lt : Mario.foot_tile_of s.player < Mario.map_h s.map := by
    rcases hcol with h | h
    · exact (tile_collide_bounds h).2.2.1
    · exact (tile_collide_bounds h).2.2.1
  have hno_fall : ¬((Mario.map_h s.map : ℚ) - 1 <
      (Mario.foot_tile_of s.player : ℚ) - 1) := by
    have hle : (Mario.foot_tile_of s.player : ℚ) ≤ (Mario.map_h s.map : ℚ) :=
      Int.cast_le.mpr hfoot_lt.le
    linarith
  unfold Mario.update_physics
  rw [hphys]
  have hfc : Mario.fall_check rng
      { s with player := { s.player with
          on_ground := true, vy := 0,
          y := (Mario.foot_tile_of s.player : ℚ) - 1 } } =
      { s with player := { s.player with
          on_ground := true, vy := 0,
          y := (Mario.foot_tile_of s.player : ℚ) - 1 } } := by
    simp only [Mario.fall_check]
    rw [if_neg]
    exact hno_fall
  rw [hfc]
  exact ⟨(coin_exit_y _).trans rfl, (coin_exit_vy _).trans rfl,
    (coin_exit_on_ground _).trans rfl⟩

/-- C2 (amended).  When the player's post-collision `y` exceeds the
map's bottom row during a physics update, lives are decremented once; if
that leaves no lives, `game_over` is set with the decremented count, but
otherwise `reset_level` runs and restores lives to 3 (it is a full
reset), so the post-tick lives are 3, not the pre-tick value minus 1. -/
theorem mario_fall_lives (rng : Nat → Nat) (s : Mario.State)
    (hfall : (Mario.map_h s.map : ℚ) - 1 < (Mario.phys_player s.map s.player).y) :
    (s.player.lives - 1 ≤ 0 →
      (Mario.update_physics rng s).game_over = true ∧
      (Mario.update_physics rng s).player.lives = s.player.lives - 1) ∧
    (0 < s.player.lives - 1 →
      (Mario.update_physics rng s).player.lives = 3) := by
  unfold Mario.update_physics
  simp only [Mario.fall_check]
  rw [if_pos (show (Mario.map_h s.map : ℚ) - 1 <
      (Mario.phys_player s.map s.player).y from hfall)]
  constructor
  · intro hle
    rw [if_pos (show (Mario.phys_player s.map s.player).lives - 1 ≤ 0 by
      rw [phys_player_lives]
      exact hle)]
    refine ⟨(coin_exit_game_over _).trans rfl, (coin_exit_lives _).trans ?_⟩
    show (Mario.phys_player s.map s.player).lives - 1 = s.player.lives - 1
    rw [phys_player_lives]
  · intro hpos
    rw [if_neg (show ¬((Mario.phys_player s.map s.player).lives - 1 ≤ 0) by
      rw [phys_player_lives]
      omega)]
    exact (coin_exit_lives _).trans rfl

lemma fall_state_phys : Mario.phys_player fall_state.map fall_state.player =
    { fall_state.player with
      on_ground := false, vy := fall_state.player.vy + Mario.GRAVITY,
      y := Mario.new_y_of fall_state.player } := by
  have hl : Mario.left_tile_of fall_state.player = -1 := by
    show ifloor ((1 : ℚ)/2 - 1) = -1
    exact ifloor_eq_of _ _ (by norm_num) (by norm_num)
  have hr : Mario.right_tile_of fall_state.player = 1 := by
    show ifloor ((1 : ℚ)/2 + 1) = 1
    exact ifloor_eq_of _ _ (by norm_num) (by norm_num)
  have hf : Mario.foot_tile_of fall_state.player = 30 := by
    show ifloor ((30 : ℚ) + ((0 : ℚ) + 3/5) * (1/10) + 9/10) = 30
    exact ifloor_eq_of _ _ (by norm_num) (by norm_num)
  simp only [Mario.phys_player, hl, hr, hf]
  rw [if_pos (show (0 : ℚ) ≤ fall_state.player.vy + Mario.GRAVITY by
    show (0 : ℚ) ≤ 0 + 3/5
    norm_num)]
  rw [if_neg (by decide)]

/-- C2 counterexample: with 3 lives and the player far below the map,
one physics update ends with 3 lives (the level reset restores them),
not 2, refuting "lives equal the pre-tick lives minus one". -/
theorem mario_fall_keeps_three_lives :
    fall_state.player.lives = 3 ∧
    (Mario.map_h fall_state.map : ℚ) - 1 <
      (Mario.phys_player fall_state.map fall_state.player).y ∧
    (Mario.update_physics rng0 fall_state).player.lives = 3 ∧
    (Mario.update_physics rng0 fall_state).player.lives ≠
      fall_state.player.lives - 1 := by
  have hfall : (Mario.map_h fall_state.map : ℚ) - 1 <
      (Mario.phys_player fall_state.map fall_state.player).y := by
    rw [fall_state_phys]
    show ((2 : Int) : ℚ) - 1 < (30 : ℚ) + ((0 : ℚ) + 3/5) * (1/10)
    norm_num
  have hlives : (Mario.update_physics rng0 fall_state).player.lives = 3 := by
    unfold Mario.update_physics
    rw [fall_state_phys]
    simp only [Mario.fall_check]
    rw [if_pos (show (Mario.map_h fall_state.map : ℚ) - 1 <
        ({ fall_state with player := { fall_state.player with
            on_ground := false, vy := fall_state.player.vy + Mario.GRAVITY,
            y := Mario.new_y_of fall_state.player } } : Mario.State).player.y by
      show ((2 : Int) : ℚ) - 1 < (30 : ℚ) + ((0 : ℚ) + 3/5) * (1/10)
      norm_num)]
    rw [if_neg (by decide)]
    rw [coin_exit_lives]
    rfl
  exact ⟨rfl, hfall, hlives, by rw [hlives]; decide⟩

/-- Witness for C2 (amended): the same falling state, with more than one
life, ends the update with exactly 3 lives via the level reset. -/
theorem mario_fall_lives_witness :
    (Mario.update_physics rng0 fall_state).player.lives = 3 :=
  (mario_fall_lives rng0 fall_state (by
      rw [fall_state_phys]
      show ((2 : Int) : ℚ) - 1 < (30 : ℚ) + ((0 : ℚ) + 3/5) * (1/10)
      norm_num)).2 (by decide)

/-- Witness for C7: a player just above a '#' platform with `vy = 0`
snaps onto it. -/
theorem mario_landing_snap_witness :
    (Mario.update_physics rng0 landing_state).player.y =
      (Mario.foot_tile_of landing_state.player : ℚ) - 1 ∧
    (Mario.update_physics rng0 landing_state).player.vy = 0 ∧
    (Mario.update_physics rng0 landing_state).player.on_ground = true :=
  mario_landing_snap rng0 landing_state (le_refl 0) (Or.inl (by
    rw [show Mario.left_tile_of landing_state.player = 0 from by
      show ifloor ((3 : ℚ)/2 - 1) = 0
      exact ifloor_eq_of _ _ (by norm_num) (by norm_num)]
    rw [show Mario.foot_tile_of landing_state.player = 2 from by
      show ifloor ((6 : ℚ)/5 + ((0 : ℚ) + 3/5) * (1/10) + 9/10) = 2
      exact ifloor_eq_of _ _ (by norm_num) (by norm_num)]
    decide))

/-- C3 (amended).  In the platformer, a player-enemy contact that is not
a stomp, with more than one life remaining, costs one life and respawns
the player at the fixed coordinate x = 2.5, y = 2.0 (with `vy` reset to
0) — not at the spawn position computed at level reset. -/
theorem mario_nonstomp_respawn_fixed (ptx pty : Int) (s : Mario.State)
    (i : Nat) (e : Mario.Enemy)
    (he : s.enemies.get? i = some e) (halive : e.alive = true)
    (hnear : (e.x - ptx).natAbs ≤ 1 ∧ (e.y - pty).natAbs ≤ 1)
    (hns : ¬(0 < s.player.vy ∧ s.player.y + 9/10 - (e.y : ℚ) < 3/4))
    (hlives : 1 < s.player.lives) :
    (Mario.check_enemy_step ptx pty s i).player.lives = s.player.lives - 1 ∧
    (Mario.check_enemy_step ptx pty s i).player.x = 5/2 ∧
    (Mario.check_enemy_step ptx pty s i).player.y = 2 ∧
    (Mario.check_enemy_step ptx pty s i).player.vy = 0 := by
  unfold Mario.check_enemy_step
  simp only [he]
  rw [halive]
  simp only [Bool.not_true]
  rw [if_neg (by decide : ¬(false = true))]
  rw [if_pos hnear, if_neg hns,
    if_neg (show ¬(s.player.lives - 1 ≤ 0) by omega)]
  exact ⟨rfl, rfl, rfl, rfl⟩

/-- C10.  In the platformer, a non-stomp enemy contact with more than
one life remaining changes only the player's lives, position and
vertical velocity: the score, the map grid, the enemy collection (the
touched enemy included, which is not removed), the flags, the camera,
`facing` and `on_ground` are all unchanged. -/
theorem mario_nonstomp_contact_frame (ptx pty : Int) (s : Mario.State)
    (i : Nat) (e : Mario.Enemy)
    (he : s.enemies.get? i = some e) (halive : e.alive = true)
    (hnear : (e.x - ptx).natAbs ≤ 1 ∧ (e.y - pty).natAbs ≤ 1)
    (hns : ¬(0 < s.player.vy ∧ s.player.y + 9/10 - (e.y : ℚ) < 3/4))
    (hlives : 1 < s.player.lives) :
    (Mario.check_enemy_step ptx pty s i).player.score = s.player.score ∧
    (Mario.check_enemy_step ptx pty s i).map = s.map ∧
    (Mario.check_enemy_step ptx pty s i).enemies = s.enemies ∧
    (Mario.check_enemy_step ptx pty s i).game_over = s.game_over ∧
    (Mario.check_enemy_step ptx pty s i).win = s.win ∧
    (Mario.check_enemy_step ptx pty s i).paused = s.paused ∧
    (Mario.check_enemy_step ptx pty s i).cam_x = s.cam_x ∧
    (Mario.check_enemy_step ptx pty s i).player.on_ground = s.player.on_ground ∧
    (Mario.check_enemy_step ptx pty s i).player.facing = s.player.facing := by
  unfold Mario.check_enemy_step
  simp only [he]
  rw [halive]
  simp only [Bool.not_true]
  rw [if_neg (by decide : ¬(false = true))]
  rw [if_pos hnear, if_neg hns,
    if_neg (show ¬(s.player.lives - 1 ≤ 0) by omega)]
  exact ⟨rfl, rfl, rfl, rfl, rfl, rfl, rfl, rfl, rfl⟩

/-- C3 counterexample: in the shipped level, a non-stomp contact
respawns the player at (2.5, 2), while `reset_level` computes the spawn
position (16.5, 6) — the respawn point is not the level-reset spawn. -/
theorem mario_respawn_not_reset_spawn :
    (Mario.check_enemy_collisions contact_state).player.x = 5/2 ∧
    (Mario.check_enemy_collisions contact_state).player.y = 2 ∧
    (Mario.reset_level rng0 contact_state).player.x = 33/2 ∧
    (Mario.reset_level rng0 contact_state).player.y = 6 ∧
    ¬((5 : ℚ)/2 = 33/2 ∧ (2 : ℚ) = 6) := by
  have hptx : ifloor contact_state.player.x = 10 := by
    show ifloor ((10 : ℚ)) = 10
    exact ifloor_eq_of _ _ (by norm_num) (by norm_num)
  have hpty : ifloor (contact_state.player.y + 1/2) = 10 := by
    show ifloor ((10 : ℚ) + 1/2) = 10
    exact ifloor_eq_of _ _ (by norm_num) (by norm_num)
  have hcol : Mario.check_enemy_collisions contact_state =
      Mario.check_enemy_step 10 10 contact_state 0 := by
    simp only [Mario.check_enemy_collisions, hptx, hpty]
    rfl
  have hstep : (Mario.check_enemy_step 10 10 contact_state 0).player.x = 5/2 ∧
      (Mario.check_enemy_step 10 10 contact_state 0).player.y = 2 := by
    unfold Mario.check_enemy_step
    simp only [show contact_state.enemies.get? 0 =
      some { alive := true, x := 10, y := 10, dir := 1,
             left_bound := 0, right_bound := 20 } from rfl]
    rw [if_neg (by decide : ¬((!true) = true))]
    rw [if_pos (by decide : ((10 : Int) - 10).natAbs ≤ 1 ∧ ((10 : Int) - 10).natAbs ≤ 1)]
    rw [if_neg (show ¬(0 < contact_state.player.vy ∧
        contact_state.player.y + 9/10 - (((10 : Int) : ℚ)) < 3/4) from
      fun h => absurd h.1 (by
        show ¬(0 < (0 : ℚ))
        norm_num))]
    rw [if_neg (by decide : ¬(contact_state.player.lives - 1 ≤ 0))]
    exact ⟨rfl, rfl⟩
  have hfind : Mario.find_spawn level_grid = (16, 6) := by decide
  refine ⟨hcol ▸ hstep.1, hcol ▸ hstep.2, ?_, ?_, by norm_num⟩
  · show ((Mario.find_spawn level_grid).1 : ℚ) + 1/2 = 33/2
    rw [hfind]
    norm_num
  · show ((Mario.find_spawn level_grid).2 : ℚ) = 6
    rw [hfind]
    norm_num

/-- Witness for C3 (amended): the concrete contact state loses one life
and lands exactly at (2.5, 2) with `vy = 0`. -/
theorem mario_nonstomp_respawn_fixed_witness :
    (Mario.check_enemy_step 10 10 contact_state 0).player.lives =
      contact_state.player.lives - 1 ∧
    (Mario.check_enemy_step 10 10 contact_state 0).player.x = 5/2 ∧
    (Mario.check_enemy_step 10 10 contact_state 0).player.y = 2 ∧
    (Mario.check_enemy_step 10 10 contact_state 0).player.vy = 0 :=
  mario_nonstomp_respawn_fixed 10 10 contact_state 0
    { alive := true, x := 10, y := 10, dir := 1, left_bound := 0, right_bound := 20 }
    rfl rfl (by decide)
    (fun h => absurd h.1 (by
      show ¬(0 < (0 : ℚ))
      norm_num))
    (by decide)

/-- Witness for C10: the same concrete contact leaves score, map,
enemies, flags, camera, facing and `on_ground` unchanged. -/
theorem mario_nonstomp_contact_frame_witness :
    (Mario.check_enemy_step 10 10 contact_state 0).player.score =
      contact_state.player.score ∧
    (Mario.check_enemy_step 10 10 contact_state 0).map = contact_state.map ∧
    (Mario.check_enemy_step 10 10 contact_state 0).enemies =
      contact_state.enemies ∧
    (Mario.check_enemy_step 10 10 contact_state 0).game_over =
      contact_state.game_over ∧
    (Mario.check_enemy_step 10 10 contact_state 0).win = contact_state.win ∧
    (Mario.check_enemy_step 10 10 contact_state 0).paused =
      contact_state.paused ∧
    (Mario.check_enemy_step 10 10 contact_state 0).cam_x =
      contact_state.cam_x ∧
    (Mario.check_enemy_step 10 10 contact_state 0).player.on_ground =
      contact_state.player.on_ground ∧
    (Mario.check_enemy_step 10 10 contact_state 0).player.facing =
      contact_state.player.facing :=
  mario_nonstomp_contact_frame 10 10 contact_state 0
    { alive := true, x := 10, y := 10, dir := 1, left_bound := 0, right_bound := 20 }
    rfl rfl (by decide)
    (fun h => absurd h.1 (by
      show ¬(0 < (0 : ℚ))
      norm_num))
    (by decide)

/-- C1 (amended).  In the platformer, the part_000 shooter and both
snake variants, every key event processed while paused leaves the whole
game state unchanged, except that the pause key flips the paused flag
and the quit key sets the terminal flag; movement, jump and shoot keys
are no-ops while paused.  (The shooting_game.c variant is excluded: its
`process_input` has no pause guard.) -/
theorem paused_input_noop (ch : Int) :
    (∀ s : Mario.State, s.paused = true →
      ((ch = 112 ∨ ch = 80) →
        Mario.handle_input_key ch s = { s with paused := false }) ∧
      ((ch = 113 ∨ ch = 81) →
        Mario.handle_input_key ch s = { s with game_over := true }) ∧
      (¬(ch = 112 ∨ ch = 80 ∨ ch = 113 ∨ ch = 81) →
        Mario.handle_input_key ch s = s)) ∧
    (∀ (alloc : Bool) (s : ShooterState), s.paused = true →
      ((ch = 112 ∨ ch = 80) →
        Shooter2.process_input_key alloc ch s = { s with paused := false }) ∧
      ((ch = 113 ∨ ch = 81) →
        Shooter2.process_input_key alloc ch s = { s with game_over := true }) ∧
      (¬(ch = 112 ∨ ch = 80 ∨ ch = 113 ∨ ch = 81) →
        Shooter2.process_input_key alloc ch s = s)) ∧
    (∀ s : SnakeState, s.paused = true →
      ((ch = 112 ∨ ch = 80) →
        SnakeA.input_key ch s = { s with paused := false }) ∧
      ((ch = 113 ∨ ch = 81) →
        SnakeA.input_key ch s = { s with quit := true }) ∧
      (¬(ch = 112 ∨ ch = 80 ∨ ch = 113 ∨ ch = 81) →
        SnakeA.input_key ch s = s)) ∧
    (∀ s : SnakeState, s.paused = true →
      ((ch = 112 ∨ ch = 80) →
        SnakeB.input_key ch s = { s with paused := false }) ∧
      ((ch = 113 ∨ ch = 81) →
        SnakeB.input_key ch s = { s with quit := true }) ∧
      (¬(ch = 112 ∨ ch = 80 ∨ ch = 113 ∨ ch = 81) →
        SnakeB.input_key ch s = s)) := by
  refine ⟨?_, ?_, ?_, ?_⟩
  · intro s hp
    refine ⟨?_, ?_, ?_⟩
    · rintro (rfl | rfl) <;> simp [Mario.handle_input_key, hp]
    · rintro (rfl | rfl) <;> simp [Mario.handle_input_key]
    · intro hch
      push_neg at hch
      simp [Mario.handle_input_key, hch.1, hch.2.1, hch.2.2.1, hch.2.2.2, hp]
  · intro alloc s hp
    refine ⟨?_, ?_, ?_⟩
    · rintro (rfl | rfl) <;> simp [Shooter2.process_input_key, hp]
    · rintro (rfl | rfl) <;> simp [Shooter2.process_input_key]
    · intro hch
      push_neg at hch
      simp [Shooter2.process_input_key, hch.1, hch.2.1, hch.2.2.1, hch.2.2.2, hp]
  · intro s hp
    refine ⟨?_, ?_, ?_⟩
    · rintro (rfl | rfl) <;> simp [SnakeA.input_key, hp]
    · rintro (rfl | rfl) <;> simp [SnakeA.input_key]
    · intro hch
      push_neg at hch
      simp [SnakeA.input_key, hch.1, hch.2.1, hch.2.2.1, hch.2.2.2, hp]
  · intro s hp
    refine ⟨?_, ?_, ?_⟩
    · rintro (rfl | rfl) <;> simp [SnakeB.input_key, hp]
    · rintro (rfl | rfl) <;> simp [SnakeB.input_key]
    · intro hch
      push_neg at hch
      simp [SnakeB.input_key, hch.1, hch.2.1, hch.2.2.1, hch.2.2.2, hp]

/-- Witness for C1 (amended): the movement key 'a' is a no-op on a
paused platformer state. -/
theorem paused_input_noop_witness :
    Mario.handle_input_key 97 paused_mario_state = paused_mario_state :=
  ((paused_input_noop 97).1 paused_mario_state rfl).2.2 (by decide)

/-- C1 counterexample: in shooting_game.c the left-arrow key moves the
player two columns even while paused — the state is changed by a
movement key processed during pause. -/
theorem shooting_input_moves_while_paused :
    paused_shooter_state.paused = true ∧
    Shooting.process_input_key true 260 paused_shooter_state =
      some { paused_shooter_state with
             player := { paused_shooter_state.player with x := 8 } } ∧
    ({ paused_shooter_state with
       player := { paused_shooter_state.player with x := 8 } } : ShooterState) ≠
      paused_shooter_state := by
  refine ⟨rfl, by decide, by decide⟩
